import Mathlib

/-!
Shallow embedding of the trigger-detection and context-normalization layer
of the `claude-code-action` repository:

* `src/github/context.ts` — `parseGitHubContext` (context normalizer),
  delimited-list parsing of label triggers and tool lists, and the
  `is*Event` classification predicates.
* the trigger module (`checkContainsTrigger`, `escapeRegExp`) — the trigger
  evaluator with its seven rules and the boundary-respecting trigger-phrase
  regex `(^|\s)<escaped phrase>([\s.,!?;:]|$)`.

JavaScript semantics embedded explicitly: the regex class `\s` (here
`isJsSpace`), `String.prototype.trim`, `String.prototype.split` on a
one-character separator, `parseInt(s, 10)` (with `none` standing for `NaN`),
string truthiness (`""` is falsy), and the short-circuiting `||` chains.
Since the trigger phrase is passed through `escapeRegExp` before being
spliced into the pattern, the phrase is matched literally; the scanner below
therefore matches the raw phrase with the pattern's boundary conditions.
-/

/-- The JavaScript regex `\s` class (also the set trimmed by
`String.prototype.trim` and skipped by `parseInt`): ASCII whitespace,
line terminators and the Unicode space separators. -/
def isJsSpace (c : Char) : Bool :=
  c = ' ' || c = '\t' || c = '\n' || c = '\r' ||
  c = '\x0b' || c = '\x0c' ||
  c = '\u00a0' || c = '\u1680' ||
  ('\u2000' ≤ c && c ≤ '\u200a') ||
  c = '\u2028' || c = '\u2029' || c = '\u202f' || c = '\u205f' ||
  c = '\u3000' || c = '\ufeff'

/-- The character class `[\s.,!?;:]` that the code's pattern requires right
after the trigger phrase (unless the phrase ends the text). -/
def followerChar (c : Char) : Bool :=
  isJsSpace c || c = '.' || c = ',' || c = '!' || c = '?' || c = ';' || c = ':'

/-- Follower set as the specification words it: only the literal space
character and the six punctuation marks (no other whitespace). Used to
compare the code's matcher against the spec's characterization. -/
def specFollowerChar (c : Char) : Bool :=
  c = ' ' || c = '.' || c = ',' || c = '!' || c = '?' || c = ';' || c = ':'

/-- `([F]|$)` of the pattern: the text after the matched phrase is either
empty or starts with a follower character. -/
def boundaryAfter (follower : Char → Bool) : List Char → Bool
  | [] => true
  | c :: _ => follower c

/-- `(^|\s)` of the pattern, position-wise: a match position is admissible
when the text before it is empty (start of text, `atOk` carries this for the
current scan position) or ends in a `\s` character. -/
def preOk (atOk : Bool) : List Char → Bool
  | [] => atOk
  | c :: rest => preOk (isJsSpace c) rest

/-- Backtracking-free scan implementing `RegExp.prototype.test` for the
pattern `(^|\s)P([F]|$)` with a literal phrase `P`: try every position of
the text; a position matches when it is admissible (`atOk`), the phrase is a
prefix of the remaining text, and the text after the phrase satisfies the
follower boundary. -/
def scanAux (follower : Char → Bool) (p : List Char) : Bool → List Char → Bool
  | atOk, [] => atOk && p.isEmpty
  | atOk, c :: rest =>
      (atOk && p.isPrefixOf (c :: rest) &&
        boundaryAfter follower ((c :: rest).drop p.length)) ||
      scanAux follower p (isJsSpace c) rest

/-- `regex.test(text)` for the boundary pattern built from `phrase`. -/
def regexTest (follower : Char → Bool) (phrase text : String) : Bool :=
  scanAux follower phrase.data true text.data

/-- The code's trigger-phrase matcher: the regex
`(^|\s)escapeRegExp(phrase)([\s.,!?;:]|$)` tested against `text`
(rules 6-9 of the trigger evaluator all build exactly this regex). -/
def containsTriggerPhrase (phrase text : String) : Bool :=
  regexTest followerChar phrase text

/-- The matcher as the specification words it: identical except that the
follower class holds only space and the six punctuation characters. -/
def specTriggerMatch (phrase text : String) : Bool :=
  regexTest specFollowerChar phrase text

/-- Declarative occurrence property: the phrase occurs at a position that is
the start of the text or right after a whitespace character, and is followed
by end-of-text or a character of the given follower set. -/
def occursWithBoundary (follower : Char → Bool) (phrase text : String) : Prop :=
  ∃ pre post, text.data = pre ++ phrase.data ++ post ∧
    preOk true pre = true ∧ boundaryAfter follower post = true

theorem preOk_nil (atOk : Bool) : preOk atOk [] = atOk := rfl

theorem preOk_cons (atOk : Bool) (c : Char) (l : List Char) :
    preOk atOk (c :: l) = preOk (isJsSpace c) l := rfl

theorem scanAux_nil (f : Char → Bool) (p : List Char) (atOk : Bool) :
    scanAux f p atOk [] = (atOk && p.isEmpty) := rfl

theorem scanAux_cons (f : Char → Bool) (p : List Char) (atOk : Bool)
    (c : Char) (rest : List Char) :
    scanAux f p atOk (c :: rest) =
      ((atOk && p.isPrefixOf (c :: rest) &&
          boundaryAfter f ((c :: rest).drop p.length)) ||
        scanAux f p (isJsSpace c) rest) := rfl

theorem matchHere_iff (follower : Char → Bool) (p t : List Char) :
    (p.isPrefixOf t && boundaryAfter follower (t.drop p.length)) = true ↔
      ∃ post, t = p ++ post ∧ boundaryAfter follower post = true := by
  constructor
  · intro h
    have h1 := (Bool.and_eq_true _ _).mp h
    obtain ⟨post, hpost⟩ := List.isPrefixOf_iff_prefix.mp h1.1
    refine ⟨post, hpost.symm, ?_⟩
    have : t.drop p.length = post := by
      rw [← hpost]
      exact List.drop_left p post
    rw [← this]
    exact h1.2
  · rintro ⟨post, rfl, hb⟩
    rw [Bool.and_eq_true]
    constructor
    · exact List.isPrefixOf_iff_prefix.mpr ⟨post, rfl⟩
    · rw [List.drop_left]
      exact hb

theorem scanAux_eq_true_iff (follower : Char → Bool) (p : List Char) :
    ∀ (t : List Char) (atOk : Bool),
      scanAux follower p atOk t = true ↔
        ∃ pre post, t = pre ++ p ++ post ∧
          preOk atOk pre = true ∧ boundaryAfter follower post = true := by
  intro t
  induction t with
  | nil =>
    intro atOk
    rw [scanAux_nil, Bool.and_eq_true, List.isEmpty_iff]
    constructor
    · rintro ⟨hA, rfl⟩
      exact ⟨[], [], rfl, hA, rfl⟩
    · rintro ⟨pre, post, heq, hpre, _⟩
      obtain ⟨h12, _⟩ := List.append_eq_nil.mp heq.symm
      obtain ⟨h1, h2⟩ := List.append_eq_nil.mp h12
      subst h1; subst h2
      exact ⟨(preOk_nil atOk) ▸ hpre, rfl⟩
  | cons c rest ih =>
    intro atOk
    rw [scanAux_cons, Bool.or_eq_true, Bool.and_assoc, Bool.and_eq_true]
    constructor
    · rintro (⟨hA, hHere⟩ | hRec)
      · obtain ⟨post, heq, hb⟩ :=
          (matchHere_iff follower p (c :: rest)).mp hHere
        exact ⟨[], post, by simpa using heq, hA, hb⟩
      · obtain ⟨pre, post, heq, hpre, hb⟩ := (ih (isJsSpace c)).mp hRec
        exact ⟨c :: pre, post, by simp [heq], (preOk_cons atOk c pre) ▸ hpre, hb⟩
    · rintro ⟨pre, post, heq, hpre, hb⟩
      cases pre with
      | nil =>
        left
        simp only [List.nil_append] at heq
        rw [preOk_nil] at hpre
        exact ⟨hpre, (matchHere_iff follower p (c :: rest)).mpr ⟨post, heq, hb⟩⟩
      | cons c' pre' =>
        right
        simp only [List.cons_append, List.cons.injEq] at heq
        obtain ⟨rfl, heq'⟩ := heq
        rw [preOk_cons] at hpre
        exact (ih (isJsSpace c)).mpr ⟨pre', post, heq', hpre, hb⟩

theorem regexTest_eq_true_iff (follower : Char → Bool) (phrase text : String) :
    regexTest follower phrase text = true ↔
      occursWithBoundary follower phrase text :=
  scanAux_eq_true_iff follower phrase.data text.data true

/-!
Data model (`src/github/context.ts`). The raw webhook payload is embedded as
a tagged union with one case per supported event name, each carrying exactly
the fields the normalizer and the evaluator read, plus one case for any
other event name (the `default` branch of the `switch`). Fields that are
nullable or optional in the webhook types (`body`, `title`, `assignee`,
`label`, `inputs`, `client_payload`) are `Option`s; `comment.body` is a
required `string` in the webhook types and the code reads it without a
fallback, so it is a plain `String` here.
-/

structure UserData where
  login : String
deriving DecidableEq

structure LabelData where
  name : String
deriving DecidableEq

structure IssueData where
  number : Nat
  title : Option String
  body : Option String
  assignee : Option UserData
  pullRequestRef : Bool
deriving DecidableEq

structure CommentData where
  body : String
deriving DecidableEq

structure PrData where
  number : Nat
  title : Option String
  body : Option String
deriving DecidableEq

structure ReviewData where
  body : Option String
deriving DecidableEq

structure WorkflowInputs where
  pr_number : Option String
  prompt : Option String
  is_pr : Option String
deriving DecidableEq

structure ClientPayload where
  pr_number : Option Int
  issue_number : Option Int
  prompt : Option String
  is_pr : Option Bool
deriving DecidableEq

inductive GhPayload where
  | issues (issue : IssueData) (label : Option LabelData)
  | issueComment (issue : IssueData) (comment : CommentData)
  | pullRequest (pull_request : PrData)
  | pullRequestReview (pull_request : PrData) (review : ReviewData)
  | pullRequestReviewComment (pull_request : PrData) (comment : CommentData)
  | workflowDispatch (inputs : Option WorkflowInputs)
  | repositoryDispatch (client_payload : Option ClientPayload)
  | unsupported (name : String)
deriving DecidableEq

/-- `context.eventName` of the raw GitHub runtime context: determined by the
shape of the payload the platform delivered. -/
def eventNameOf : GhPayload → String
  | .issues .. => "issues"
  | .issueComment .. => "issue_comment"
  | .pullRequest .. => "pull_request"
  | .pullRequestReview .. => "pull_request_review"
  | .pullRequestReviewComment .. => "pull_request_review_comment"
  | .workflowDispatch .. => "workflow_dispatch"
  | .repositoryDispatch .. => "repository_dispatch"
  | .unsupported name => name

/-- The ambient `github.context` plus runtime fields consumed by
`parseGitHubContext`. -/
structure RawGitHubContext where
  runId : String
  eventAction : Option String
  repoOwner : String
  repoName : String
  actor : String
  payload : GhPayload
deriving DecidableEq

/-- The environment-sourced configuration strings (`process.env.*`); `none`
models an unset variable, which `??` replaces by the default. -/
structure EnvInputs where
  triggerPhrase : Option String
  assigneeTrigger : Option String
  labelTrigger : Option String
  allowedTools : Option String
  disallowedTools : Option String
  customInstructions : Option String
  directPrompt : Option String
  baseBranch : Option String
deriving DecidableEq

structure Inputs where
  triggerPhrase : String
  assigneeTrigger : String
  labelTriggers : List String
  allowedTools : List String
  disallowedTools : List String
  customInstructions : String
  directPrompt : String
  baseBranch : Option String
deriving DecidableEq

/-- `ParsedGitHubContext` (without the redundant `eventName` field: in every
context the normalizer builds, `eventName` equals the payload's event name,
so it is exposed as the derived function `ParsedGitHubContext.eventName`).
`entityNumber` is `Option Int`, with `none` standing for JavaScript `NaN`
(reachable through `parseInt` on a non-numeric dispatch `pr_number`). -/
structure ParsedGitHubContext where
  runId : String
  eventAction : Option String
  repoOwner : String
  repoName : String
  repoFullName : String
  actor : String
  payload : GhPayload
  entityNumber : Option Int
  isPR : Bool
  inputs : Inputs
deriving DecidableEq

def ParsedGitHubContext.eventName (c : ParsedGitHubContext) : String :=
  eventNameOf c.payload

/-- `String.prototype.trim`: remove leading and trailing JavaScript
whitespace. -/
def jsTrim (s : String) : String :=
  String.mk (((s.data.dropWhile isJsSpace).reverse.dropWhile isJsSpace).reverse)

/-- `parseInt(s, 10)`: skip leading whitespace, read an optional sign and
then the longest digit prefix; `none` is `NaN` (no digits). Trailing
non-digit characters are ignored. -/
def jsDigitsPrefix (l : List Char) : Option Nat :=
  let ds := l.takeWhile Char.isDigit
  if ds.isEmpty then none
  else some (ds.foldl (fun a c => a * 10 + (c.toNat - 48)) 0)

def jsParseInt (s : String) : Option Int :=
  match s.data.dropWhile isJsSpace with
  | '-' :: rest => (jsDigitsPrefix rest).map (fun n => -(n : Int))
  | '+' :: rest => (jsDigitsPrefix rest).map (fun n => (n : Int))
  | rest => (jsDigitsPrefix rest).map (fun n => (n : Int))

/-- JavaScript truthiness of a possibly-absent string (`""`, `null` and
`undefined` are falsy). -/
def truthyStr : Option String → Bool
  | some s => s ≠ ""
  | none => false

/-- JavaScript truthiness of a possibly-absent number (`0`, `null` and
`undefined` are falsy; `NaN` cannot arise for the embedded `Int` fields). -/
def truthyInt : Option Int → Bool
  | some n => n ≠ 0
  | none => false

/-- `a || b` on JavaScript string-or-undefined values: the left operand when
it is truthy, otherwise the right operand. -/
def jsOrStr (a b : Option String) : Option String :=
  match a with
  | some s => if s = "" then b else some s
  | none => b

/-- `body || ""` on a nullable string field. -/
def jsOrEmpty : Option String → String
  | some s => s
  | none => ""

/-- `String.prototype.split` with a one-character separator: split at every
occurrence of the separator; an empty string yields `[""]`, and leading,
trailing or adjacent separators yield empty fields. -/
def jsSplitAux (sep : Char) : List Char → List Char → List (List Char)
  | acc, [] => [acc.reverse]
  | acc, c :: rest =>
      if c = sep then acc.reverse :: jsSplitAux sep [] rest
      else jsSplitAux sep (c :: acc) rest

def jsSplit (sep : Char) (s : String) : List String :=
  (jsSplitAux sep [] s.data).map String.mk

/-- The label-trigger parser from `parseGitHubContext`: empty source gives
`[]`; a source containing a newline (`includes('\n')`) is split on
newlines, otherwise on commas; elements are trimmed and empty elements
dropped. -/
def parseLabelTriggers (labelTriggerInput : String) : List String :=
  if labelTriggerInput = "" then []
  else if labelTriggerInput.data.contains '\n' then
    ((jsSplit '\n' labelTriggerInput).map jsTrim).filter
      (fun label => decide (0 < label.length))
  else
    ((jsSplit ',' labelTriggerInput).map jsTrim).filter
      (fun label => decide (0 < label.length))

/-- The allowed-tools parser from `parseGitHubContext`: always split on
commas, trim, drop empty elements (no newline mode). -/
def parseAllowedTools (raw : String) : List String :=
  ((jsSplit ',' raw).map jsTrim).filter (fun tool => decide (0 < tool.length))

/-- The disallowed-tools parser from `parseGitHubContext`: textually the
same element-wise pipeline as the allowed-tools parser. -/
def parseDisallowedTools (raw : String) : List String :=
  ((jsSplit ',' raw).map jsTrim).filter (fun tool => decide (0 < tool.length))

/-- The `inputs` record assembled in `commonFields`. -/
def parseInputs (env : EnvInputs) : Inputs where
  triggerPhrase := env.triggerPhrase.getD "@claude"
  assigneeTrigger := env.assigneeTrigger.getD ""
  labelTriggers := parseLabelTriggers (env.labelTrigger.getD "")
  allowedTools := parseAllowedTools (env.allowedTools.getD "")
  disallowedTools := parseDisallowedTools (env.disallowedTools.getD "")
  customInstructions := env.customInstructions.getD ""
  directPrompt := env.directPrompt.getD ""
  baseBranch := env.baseBranch

/-- `parseGitHubContext`: the `switch` on `context.eventName`; the
`default` branch throws `Unsupported event type: <name>`, embedded as
`Except.error`. For the two dispatch kinds, `entityNumber` is
`prNumber ? parseInt(prNumber.toString(), 10) : 0` (for the repository
dispatch the raw value is a number, so `toString` then `parseInt` round-trip
it; for the workflow dispatch it is the raw input string). -/
def parseGitHubContext (gh : RawGitHubContext) (env : EnvInputs) :
    Except String ParsedGitHubContext :=
  let inputs := parseInputs env
  let fullName := gh.repoOwner ++ "/" ++ gh.repoName
  match gh.payload with
  | .issues issue label =>
      .ok { runId := gh.runId, eventAction := gh.eventAction,
            repoOwner := gh.repoOwner, repoName := gh.repoName,
            repoFullName := fullName, actor := gh.actor,
            payload := .issues issue label,
            entityNumber := some (issue.number : Int), isPR := false,
            inputs := inputs }
  | .issueComment issue comment =>
      .ok { runId := gh.runId, eventAction := gh.eventAction,
            repoOwner := gh.repoOwner, repoName := gh.repoName,
            repoFullName := fullName, actor := gh.actor,
            payload := .issueComment issue comment,
            entityNumber := some (issue.number : Int),
            isPR := issue.pullRequestRef,
            inputs := inputs }
  | .pullRequest pr =>
      .ok { runId := gh.runId, eventAction := gh.eventAction,
            repoOwner := gh.repoOwner, repoName := gh.repoName,
            repoFullName := fullName, actor := gh.actor,
            payload := .pullRequest pr,
            entityNumber := some (pr.number : Int), isPR := true,
            inputs := inputs }
  | .pullRequestReview pr review =>
      .ok { runId := gh.runId, eventAction := gh.eventAction,
            repoOwner := gh.repoOwner, repoName := gh.repoName,
            repoFullName := fullName, actor := gh.actor,
            payload := .pullRequestReview pr review,
            entityNumber := some (pr.number : Int), isPR := true,
            inputs := inputs }
  | .pullRequestReviewComment pr comment =>
      .ok { runId := gh.runId, eventAction := gh.eventAction,
            repoOwner := gh.repoOwner, repoName := gh.repoName,
            repoFullName := fullName, actor := gh.actor,
            payload := .pullRequestReviewComment pr comment,
            entityNumber := some (pr.number : Int), isPR := true,
            inputs := inputs }
  | .repositoryDispatch cp =>
      let prNumber := cp.bind (fun c => c.pr_number)
      .ok { runId := gh.runId, eventAction := gh.eventAction,
            repoOwner := gh.repoOwner, repoName := gh.repoName,
            repoFullName := fullName, actor := gh.actor,
            payload := .repositoryDispatch cp,
            entityNumber :=
              match prNumber with
              | some n => if n = 0 then some 0 else jsParseInt (toString n)
              | none => some 0,
            isPR := (cp.bind (fun c => c.is_pr)) == some true ||
              truthyInt prNumber,
            inputs := inputs }
  | .workflowDispatch winputs =>
      let prNumber := winputs.bind (fun w => w.pr_number)
      .ok { runId := gh.runId, eventAction := gh.eventAction,
            repoOwner := gh.repoOwner, repoName := gh.repoName,
            repoFullName := fullName, actor := gh.actor,
            payload := .workflowDispatch winputs,
            entityNumber :=
              match prNumber with
              | some s => if s = "" then some 0 else jsParseInt s
              | none => some 0,
            isPR := (winputs.bind (fun w => w.is_pr)) == some "true" ||
              truthyStr prNumber,
            inputs := inputs }
  | .unsupported name => .error ("Unsupported event type: " ++ name)

/-- `isIssuesEvent` and friends: the classification predicates compare
`context.eventName` against the event-name literal. -/
def isIssuesEvent (context : ParsedGitHubContext) : Bool :=
  context.eventName == "issues"

def isIssueCommentEvent (context : ParsedGitHubContext) : Bool :=
  context.eventName == "issue_comment"

def isPullRequestEvent (context : ParsedGitHubContext) : Bool :=
  context.eventName == "pull_request"

def isPullRequestReviewEvent (context : ParsedGitHubContext) : Bool :=
  context.eventName == "pull_request_review"

def isPullRequestReviewCommentEvent (context : ParsedGitHubContext) : Bool :=
  context.eventName == "pull_request_review_comment"

def isWorkflowDispatchEvent (context : ParsedGitHubContext) : Bool :=
  context.eventName == "workflow_dispatch"

def isRepositoryDispatchEvent (context : ParsedGitHubContext) : Bool :=
  context.eventName == "repository_dispatch"

/-!
Trigger evaluator (`checkContainsTrigger`). The ambient reads that back the
workflow-dispatch fallback chain (`core.getInput("pr_number")`,
`process.env.PR_NUMBER`, `core.getInput("prompt")`, `process.env.PROMPT`)
are passed in explicitly; `core.getInput` yields `""` when the input is
absent, `process.env` yields `undefined` (`none`). The result is the pair of
the returned boolean and the single `console.log` line emitted on the taken
path (the rationale). Apostrophes in the rationale strings are written
`\x27`.
-/

structure AmbientEnv where
  inputPrNumber : String
  envPrNumber : Option String
  inputPrompt : String
  envPrompt : Option String
deriving DecidableEq

/-- `assigneeTrigger.replace(/^@/, "")`: strip one leading `@`. -/
def stripLeadingAt (s : String) : String :=
  match s.data with
  | '@' :: rest => String.mk rest
  | _ => s

/-- The body of `checkContainsTrigger`, over the fields it actually reads:
`context.eventAction`, `context.payload` (through the `is*Event` predicates
and the per-kind field accesses) and `context.inputs`, plus the ambient
fallback values. Rules appear in the source's order; within the `issues`
kind the three action-guarded rules are mutually exclusive, so the
fall-through chain is an `if`/`else` cascade. -/
def checkContainsTriggerCore (eventAction : Option String) (payload : GhPayload)
    (inputs : Inputs) (ambient : AmbientEnv) : Bool × String :=
  let triggerPhrase := inputs.triggerPhrase
  if inputs.directPrompt ≠ "" then
    (true, "Direct prompt provided, triggering action")
  else
    match payload with
    | .workflowDispatch winputs =>
        let prNumber := jsOrStr (winputs.bind (fun w => w.pr_number))
          (jsOrStr (some ambient.inputPrNumber) ambient.envPrNumber)
        if truthyStr prNumber then
          (true, "Workflow dispatch triggered for PR #" ++ jsOrEmpty prNumber)
        else
          let workflowPrompt := jsOrStr (winputs.bind (fun w => w.prompt))
            (jsOrStr (some ambient.inputPrompt) ambient.envPrompt)
          if truthyStr workflowPrompt then
            (true, "Workflow dispatch with direct prompt")
          else
            (false,
              "Workflow dispatch triggered but no PR number or prompt provided")
    | .repositoryDispatch cp =>
        let prNumber := cp.bind (fun c => c.pr_number)
        let issueNumber := cp.bind (fun c => c.issue_number)
        if truthyInt prNumber then
          (true, "Repository dispatch triggered for PR #" ++
            toString (prNumber.getD 0))
        else if truthyInt issueNumber then
          (true, "Repository dispatch triggered for issue #" ++
            toString (issueNumber.getD 0))
        else
          let repositoryPrompt := cp.bind (fun c => c.prompt)
          if truthyStr repositoryPrompt then
            (true, "Repository dispatch with direct prompt")
          else
            (false,
              "Repository dispatch triggered but no PR number, issue number or prompt provided")
    | .issues issue label =>
        let triggerUser := stripLeadingAt inputs.assigneeTrigger
        let assigneeUsername :=
          match issue.assignee with
          | some u => u.login
          | none => ""
        let labelName :=
          match label with
          | some l => l.name
          | none => ""
        if eventAction == some "assigned" &&
            (triggerUser != "" && assigneeUsername == triggerUser) then
          (true, "Issue assigned to trigger user \x27" ++ triggerUser ++ "\x27")
        else if eventAction == some "labeled" &&
            (decide (0 < inputs.labelTriggers.length) && labelName != "" &&
              inputs.labelTriggers.contains labelName) then
          (true, "Issue labeled with trigger label \x27" ++ labelName ++
            "\x27 (from trigger list: [" ++
            String.intercalate ", " inputs.labelTriggers ++ "])")
        else if eventAction == some "opened" &&
            containsTriggerPhrase triggerPhrase (jsOrEmpty issue.body) then
          (true, "Issue body contains exact trigger phrase \x27" ++
            triggerPhrase ++ "\x27")
        else if eventAction == some "opened" &&
            containsTriggerPhrase triggerPhrase (jsOrEmpty issue.title) then
          (true, "Issue title contains exact trigger phrase \x27" ++
            triggerPhrase ++ "\x27")
        else
          (false, "No trigger was met for " ++ triggerPhrase)
    | .pullRequest pr =>
        if containsTriggerPhrase triggerPhrase (jsOrEmpty pr.body) then
          (true, "Pull request body contains exact trigger phrase \x27" ++
            triggerPhrase ++ "\x27")
        else if containsTriggerPhrase triggerPhrase (jsOrEmpty pr.title) then
          (true, "Pull request title contains exact trigger phrase \x27" ++
            triggerPhrase ++ "\x27")
        else
          (false, "No trigger was met for " ++ triggerPhrase)
    | .pullRequestReview _ review =>
        if (eventAction == some "submitted" || eventAction == some "edited") &&
            containsTriggerPhrase triggerPhrase (jsOrEmpty review.body) then
          (true, "Pull request review contains exact trigger phrase \x27" ++
            triggerPhrase ++ "\x27")
        else
          (false, "No trigger was met for " ++ triggerPhrase)
    | .issueComment _ comment =>
        if containsTriggerPhrase triggerPhrase comment.body then
          (true, "Comment contains exact trigger phrase \x27" ++
            triggerPhrase ++ "\x27")
        else
          (false, "No trigger was met for " ++ triggerPhrase)
    | .pullRequestReviewComment _ comment =>
        if containsTriggerPhrase triggerPhrase comment.body then
          (true, "Comment contains exact trigger phrase \x27" ++
            triggerPhrase ++ "\x27")
        else
          (false, "No trigger was met for " ++ triggerPhrase)
    | .unsupported _ =>
        (false, "No trigger was met for " ++ triggerPhrase)

/-- `checkContainsTrigger` with its log line (the rationale). -/
def checkContainsTriggerLog (context : ParsedGitHubContext)
    (ambient : AmbientEnv) : Bool × String :=
  checkContainsTriggerCore context.eventAction context.payload context.inputs
    ambient

/-- The boolean returned by `checkContainsTrigger`. -/
def checkContainsTrigger (context : ParsedGitHubContext)
    (ambient : AmbientEnv) : Bool :=
  (checkContainsTriggerLog context ambient).1

instance {ε α : Type} [DecidableEq ε] [DecidableEq α] :
    DecidableEq (Except ε α) := fun a b =>
  match a, b with
  | .ok x, .ok y =>
      if h : x = y then .isTrue (by rw [h]) else .isFalse (by simp [h])
  | .error x, .error y =>
      if h : x = y then .isTrue (by rw [h]) else .isFalse (by simp [h])
  | .ok _, .error _ => .isFalse (by simp)
  | .error _, .ok _ => .isFalse (by simp)

/-! Concrete fixtures used by witnesses and counterexamples. -/

/-- No configuration environment variables set: every input takes its
default (`triggerPhrase = "@claude"`, everything else empty). -/
def emptyEnvInputs : EnvInputs :=
  { triggerPhrase := none, assigneeTrigger := none, labelTrigger := none,
    allowedTools := none, disallowedTools := none, customInstructions := none,
    directPrompt := none, baseBranch := none }

/-- No ambient fallback values for the workflow-dispatch chain. -/
def quietAmbient : AmbientEnv :=
  { inputPrNumber := "", envPrNumber := none, inputPrompt := "",
    envPrompt := none }

def defaultInputs : Inputs := parseInputs emptyEnvInputs

/-!
C1 `escapeRegExp` makes the phrase literal, so the matcher semantics is
`containsTriggerPhrase`. The claim's characterization (follower set = space
and the six punctuation marks only) is `occursWithBoundary specFollowerChar`;
the code's actual follower set also admits every other whitespace character
(`[\s.,!?;:]`), so a phrase followed by a tab or newline matches in the code
but not per the claim.
-/

/-- C1 counterexample: for phrase `"@claude"` and text `"@claude\t"`, the
code's matcher accepts (the tab is in the `\s` part of `[\s.,!?;:]`), but
the phrase is not followed by end-of-text nor by one of space, '.', ',',
'!', '?', ';', ':' — so the claimed iff fails at this input. -/
theorem trigger_phrase_match_claim_false :
    containsTriggerPhrase "@claude" "@claude\t" = true ∧
    ¬ occursWithBoundary specFollowerChar "@claude" "@claude\t" := by
  constructor
  · decide
  · intro h
    have hm : regexTest specFollowerChar "@claude" "@claude\t" = true :=
      (regexTest_eq_true_iff specFollowerChar "@claude" "@claude\t").mpr h
    exact absurd hm (by decide)

/-- C1 (amended): the matcher accepts a text iff the literal trigger phrase
occurs at the very start of the text or immediately after a whitespace
character, and is immediately followed by end-of-text, a whitespace
character, or one of '.', ',', '!', '?', ';', ':'. In particular, for
phrase "@claude": "@claude" matches, "hi @claude," matches,
"@claudesomething" does not, "foo@claude" does not, and "" does not. -/
theorem trigger_phrase_match_characterization :
    (∀ phrase text : String,
      containsTriggerPhrase phrase text = true ↔
        occursWithBoundary followerChar phrase text) ∧
    containsTriggerPhrase "@claude" "@claude" = true ∧
    containsTriggerPhrase "@claude" "hi @claude," = true ∧
    containsTriggerPhrase "@claude" "@claudesomething" = false ∧
    containsTriggerPhrase "@claude" "foo@claude" = false ∧
    containsTriggerPhrase "@claude" "" = false :=
  ⟨fun phrase text => regexTest_eq_true_iff followerChar phrase text,
   by decide, by decide, by decide, by decide, by decide⟩

/-!
C2 In the source, only the label-trigger input gets the two-mode
newline/comma split; the allowed-tools and disallowed-tools inputs are
always split on commas.
-/

/-- C2 counterexample: the three lists are not parsed by the same function —
on the newline-separated source `"a\nb\nc"` the label parser yields three
elements while the tool parsers keep the whole string as one element. -/
theorem list_parsing_not_uniform :
    parseLabelTriggers "a\nb\nc" = ["a", "b", "c"] ∧
    parseAllowedTools "a\nb\nc" = ["a\nb\nc"] ∧
    parseDisallowedTools "a\nb\nc" = ["a\nb\nc"] ∧
    parseAllowedTools "a\nb\nc" ≠ parseLabelTriggers "a\nb\nc" := by
  refine ⟨by decide, by decide, by decide, by decide⟩

/-- C2 (amended): the label-trigger list uses the two-mode split policy
(empty source gives the empty list, a source with a newline splits on
newlines, otherwise on commas; elements trimmed, empty elements dropped),
while the allowed-tools and disallowed-tools lists always split on commas
(with the same trimming and dropping). The two tool parsers are one and the
same function, and all three parsers agree on every newline-free source. -/
theorem list_parsing_policy :
    (∀ raw : String, parseAllowedTools raw = parseDisallowedTools raw) ∧
    (∀ raw : String, raw.data.contains '\n' = false →
      parseLabelTriggers raw = parseAllowedTools raw) := by
  constructor
  · intro raw
    rfl
  · intro raw h
    by_cases hraw : raw = ""
    · subst hraw
      decide
    · rw [parseLabelTriggers, if_neg hraw, if_neg (by rw [h]; simp)]
      rfl

/-- Witness for C2's amended theorem at the comma-separated source
`"a,b,c"`. -/
theorem list_parsing_policy_witness :
    parseLabelTriggers "a,b,c" = parseAllowedTools "a,b,c" :=
  list_parsing_policy.2 "a,b,c" (by decide)

/-! C3 classification helpers for stating the normalization properties. -/

/-- Event kind inside the supported set of seven. -/
def isSupportedPayload : GhPayload → Bool
  | .unsupported _ => false
  | _ => true

/-- Dispatch event kinds (the two kinds whose `entityNumber` defaults). -/
def isDispatchPayload : GhPayload → Bool
  | .workflowDispatch _ => true
  | .repositoryDispatch _ => true
  | _ => false

/-- Whether a dispatch payload carries a truthy `pr_number`. -/
def dispatchPrTruthy : GhPayload → Bool
  | .workflowDispatch w => truthyStr (w.bind (fun x => x.pr_number))
  | .repositoryDispatch c => truthyInt (c.bind (fun x => x.pr_number))
  | _ => false

/-- A repository-dispatch raw event whose `client_payload.pr_number` is the
(truthy) number `-5`. -/
def ghRepoDispatchNegPr : RawGitHubContext :=
  ⟨"1", none, "octo", "repo", "actor",
    .repositoryDispatch (some ⟨some (-5), none, none, none⟩)⟩

/-- A plain issues/opened raw event. -/
def ghIssuesOpened : RawGitHubContext :=
  ⟨"1", some "opened", "octo", "repo", "actor",
    .issues ⟨55, some "Fix bug", some "Please see @claude for details.",
      none, false⟩ none⟩

/-- A raw event of an unsupported kind. -/
def ghUnsupportedPush : RawGitHubContext :=
  ⟨"1", none, "octo", "repo", "actor", .unsupported "push"⟩

/-- C3 counterexample: normalization of a supported (repository_dispatch)
event succeeds but produces a negative `entityNumber`: a `client_payload`
with `pr_number = -5` is truthy, and `parseInt((-5).toString(), 10) = -5`,
so `entityNumber ≥ 0` fails. -/
theorem normalization_negative_entity :
    (parseGitHubContext ghRepoDispatchNegPr emptyEnvInputs).map
        (fun c => c.entityNumber) = .ok (some (-5)) ∧
    ¬ (0 : Int) ≤ -5 := by
  refine ⟨by decide, by decide⟩

/-- C3 (amended): for every raw event of one of the seven supported kinds,
normalization completes without throwing; `entityNumber` is 0 for dispatch
events lacking a truthy explicit PR number, and is the platform-supplied
(non-negative) issue/PR number for the five non-dispatch kinds; for a
dispatch event carrying a `pr_number`, `entityNumber` is JavaScript
`parseInt` of it, which need not be ≥ 0. For every event kind outside the
seven, normalization throws the unsupported-event-kind error naming the
offending kind. -/
theorem normalization_totality :
    (∀ (gh : RawGitHubContext) (env : EnvInputs),
      isSupportedPayload gh.payload = true →
      ∃ ctx, parseGitHubContext gh env = .ok ctx ∧
        (isDispatchPayload gh.payload = true →
          dispatchPrTruthy gh.payload = false → ctx.entityNumber = some 0) ∧
        (isDispatchPayload gh.payload = false →
          ∃ n : Nat, ctx.entityNumber = some (n : Int))) ∧
    (∀ (gh : RawGitHubContext) (env : EnvInputs) (name : String),
      gh.payload = .unsupported name →
      parseGitHubContext gh env =
        .error ("Unsupported event type: " ++ name)) := by
  constructor
  · rintro ⟨runId, act, ow, rn, ac, payload⟩ env hs
    cases payload with
    | issues issue label =>
        exact ⟨_, rfl, by intro h; simp [isDispatchPayload] at h,
          fun _ => ⟨issue.number, rfl⟩⟩
    | issueComment issue comment =>
        exact ⟨_, rfl, by intro h; simp [isDispatchPayload] at h,
          fun _ => ⟨issue.number, rfl⟩⟩
    | pullRequest pr =>
        exact ⟨_, rfl, by intro h; simp [isDispatchPayload] at h,
          fun _ => ⟨pr.number, rfl⟩⟩
    | pullRequestReview pr review =>
        exact ⟨_, rfl, by intro h; simp [isDispatchPayload] at h,
          fun _ => ⟨pr.number, rfl⟩⟩
    | pullRequestReviewComment pr comment =>
        exact ⟨_, rfl, by intro h; simp [isDispatchPayload] at h,
          fun _ => ⟨pr.number, rfl⟩⟩
    | workflowDispatch w =>
        refine ⟨_, rfl, ?_, by intro h; simp [isDispatchPayload] at h⟩
        intro _ hf
        simp only [dispatchPrTruthy] at hf
        simp only [parseGitHubContext]
        cases hw : w.bind (fun x => x.pr_number) with
        | none => simp [hw]
        | some s =>
            rw [hw] at hf
            simp only [truthyStr, decide_eq_false_iff_not, not_not] at hf
            simp [hw, hf]
    | repositoryDispatch cp =>
        refine ⟨_, rfl, ?_, by intro h; simp [isDispatchPayload] at h⟩
        intro _ hf
        simp only [dispatchPrTruthy] at hf
        simp only [parseGitHubContext]
        cases hc : cp.bind (fun x => x.pr_number) with
        | none => simp [hc]
        | some n =>
            rw [hc] at hf
            simp only [truthyInt, decide_eq_false_iff_not, not_not] at hf
            simp [hc, hf]
    | unsupported name => simp [isSupportedPayload] at hs
  · rintro ⟨runId, act, ow, rn, ac, payload⟩ env name hname
    cases hname
    rfl

/-- Witness for C3's amended theorem: a concrete issues event normalizes
successfully, and a concrete `push` event is rejected with the error naming
the kind. -/
theorem normalization_totality_witness :
    (∃ ctx, parseGitHubContext ghIssuesOpened emptyEnvInputs = .ok ctx ∧
      (isDispatchPayload ghIssuesOpened.payload = true →
        dispatchPrTruthy ghIssuesOpened.payload = false →
        ctx.entityNumber = some 0) ∧
      (isDispatchPayload ghIssuesOpened.payload = false →
        ∃ n : Nat, ctx.entityNumber = some (n : Int))) ∧
    parseGitHubContext ghUnsupportedPush emptyEnvInputs =
      .error ("Unsupported event type: " ++ "push") :=
  ⟨normalization_totality.1 ghIssuesOpened emptyEnvInputs (by decide),
   normalization_totality.2 ghUnsupportedPush emptyEnvInputs "push" rfl⟩

theorem truthyInt_eq_true_iff (o : Option Int) :
    truthyInt o = true ↔ ∃ n, o = some n ∧ n ≠ 0 := by
  cases o <;> simp [truthyInt]

theorem truthyStr_eq_true_iff (o : Option String) :
    truthyStr o = true ↔ ∃ s, o = some s ∧ s ≠ "" := by
  cases o <;> simp [truthyStr]

/-- C9: the `isPR` flag set by normalization, per event kind: `false` for
issues; for issue_comment, `Boolean(issue.pull_request)` (the back-reference
presence); `true` for the three pull-request kinds; for repository_dispatch,
true iff `client_payload.is_pr === true` or a truthy `pr_number` is present;
for workflow_dispatch, true iff `inputs.is_pr === "true"` or a truthy
`pr_number` input is present. -/
theorem normalization_isPR_table :
    (∀ (rid : String) (act : Option String) (ow rn ac : String)
        (env : EnvInputs) (issue : IssueData) (label : Option LabelData),
      (parseGitHubContext ⟨rid, act, ow, rn, ac, .issues issue label⟩
          env).map (fun c => c.isPR) = .ok false) ∧
    (∀ (rid : String) (act : Option String) (ow rn ac : String)
        (env : EnvInputs) (issue : IssueData) (comment : CommentData),
      (parseGitHubContext ⟨rid, act, ow, rn, ac, .issueComment issue comment⟩
          env).map (fun c => c.isPR) = .ok issue.pullRequestRef) ∧
    (∀ (rid : String) (act : Option String) (ow rn ac : String)
        (env : EnvInputs) (pr : PrData),
      (parseGitHubContext ⟨rid, act, ow, rn, ac, .pullRequest pr⟩
          env).map (fun c => c.isPR) = .ok true) ∧
    (∀ (rid : String) (act : Option String) (ow rn ac : String)
        (env : EnvInputs) (pr : PrData) (review : ReviewData),
      (parseGitHubContext ⟨rid, act, ow, rn, ac, .pullRequestReview pr review⟩
          env).map (fun c => c.isPR) = .ok true) ∧
    (∀ (rid : String) (act : Option String) (ow rn ac : String)
        (env : EnvInputs) (pr : PrData) (comment : CommentData),
      (parseGitHubContext
          ⟨rid, act, ow, rn, ac, .pullRequestReviewComment pr comment⟩
          env).map (fun c => c.isPR) = .ok true) ∧
    (∀ (rid : String) (act : Option String) (ow rn ac : String)
        (env : EnvInputs) (cp : Option ClientPayload),
      ((parseGitHubContext ⟨rid, act, ow, rn, ac, .repositoryDispatch cp⟩
          env).map (fun c => c.isPR) = .ok true ↔
        (cp.bind (fun x => x.is_pr) = some true ∨
          ∃ n, cp.bind (fun x => x.pr_number) = some n ∧ n ≠ 0))) ∧
    (∀ (rid : String) (act : Option String) (ow rn ac : String)
        (env : EnvInputs) (w : Option WorkflowInputs),
      ((parseGitHubContext ⟨rid, act, ow, rn, ac, .workflowDispatch w⟩
          env).map (fun c => c.isPR) = .ok true ↔
        (w.bind (fun x => x.is_pr) = some "true" ∨
          ∃ s, w.bind (fun x => x.pr_number) = some s ∧ s ≠ ""))) := by
  refine ⟨fun _ _ _ _ _ _ _ _ => rfl, fun _ _ _ _ _ _ _ _ => rfl,
    fun _ _ _ _ _ _ _ => rfl, fun _ _ _ _ _ _ _ _ => rfl,
    fun _ _ _ _ _ _ _ _ => rfl, ?_, ?_⟩
  · intro rid act ow rn ac env cp
    simp [parseGitHubContext, Except.map, Bool.or_eq_true, beq_iff_eq,
      truthyInt_eq_true_iff]
  · intro rid act ow rn ac env w
    simp [parseGitHubContext, Except.map, Bool.or_eq_true, beq_iff_eq,
      truthyStr_eq_true_iff]

/-- Inputs with a non-empty direct prompt and defaults everywhere else. -/
def directPromptInputs : Inputs :=
  { defaultInputs with directPrompt := "Fix the login bug" }

/-- An issues/opened context that matches no body/title/label/assignee rule,
but carries a non-empty direct prompt. -/
def ctxDirectPrompt : ParsedGitHubContext :=
  ⟨"run-1", some "opened", "octo", "repo", "octo/repo", "actor",
    .issues ⟨12, some "Unrelated title", some "No mention here.", none,
      false⟩ none,
    some 12, false, directPromptInputs⟩

/-- C5: whenever `config.directPrompt` is non-empty, the evaluator returns
true, regardless of event kind, action, payload and every other input. -/
theorem direct_prompt_always_triggers :
    ∀ (c : ParsedGitHubContext) (ambient : AmbientEnv),
      c.inputs.directPrompt ≠ "" → checkContainsTrigger c ambient = true := by
  intro c ambient h
  simp only [checkContainsTrigger, checkContainsTriggerLog,
    checkContainsTriggerCore, if_pos h]

/-- Witness for C5 at an otherwise non-matching issues/opened context. -/
theorem direct_prompt_always_triggers_witness :
    checkContainsTrigger ctxDirectPrompt quietAmbient = true :=
  direct_prompt_always_triggers ctxDirectPrompt quietAmbient (by decide)

/-- Two contexts sharing action, payload and inputs but differing in every
metadata field (`runId`, repository, actor, `entityNumber`, `isPR`). -/
def ctxMetaA : ParsedGitHubContext :=
  ⟨"run-A", some "created", "ownerA", "repoA", "ownerA/repoA", "alice",
    .issueComment ⟨7, some "t", some "b", none, false⟩ ⟨"hello @claude"⟩,
    some 7, false, defaultInputs⟩

def ctxMetaB : ParsedGitHubContext :=
  ⟨"run-B", some "created", "ownerB", "repoB", "ownerB/repoB", "bob",
    .issueComment ⟨7, some "t", some "b", none, false⟩ ⟨"hello @claude"⟩,
    some 99, true, defaultInputs⟩

/-- C10: the trigger decision depends only on the event kind (carried by the
payload), the event action, the payload and the configuration inputs; the
metadata fields (`runId`, repository owner and name, actor, `entityNumber`,
`isPR`) never influence it. -/
theorem trigger_ignores_metadata :
    ∀ (c1 c2 : ParsedGitHubContext) (ambient : AmbientEnv),
      c1.eventAction = c2.eventAction → c1.payload = c2.payload →
      c1.inputs = c2.inputs →
      checkContainsTrigger c1 ambient = checkContainsTrigger c2 ambient := by
  intro c1 c2 ambient h1 h2 h3
  unfold checkContainsTrigger checkContainsTriggerLog
  rw [h1, h2, h3]

/-- Witness for C10: two contexts differing in all metadata fields get the
same decision. -/
theorem trigger_ignores_metadata_witness :
    checkContainsTrigger ctxMetaA quietAmbient =
      checkContainsTrigger ctxMetaB quietAmbient :=
  trigger_ignores_metadata ctxMetaA ctxMetaB quietAmbient rfl rfl rfl

/-- Truthiness of a JavaScript `||` of two string values: the chain is
truthy exactly when one of its members is. -/
theorem truthyStr_jsOrStr (a b : Option String) :
    truthyStr (jsOrStr a b) = (truthyStr a || truthyStr b) := by
  cases a with
  | none => rfl
  | some s =>
      by_cases h : s = ""
      · subst h; simp [jsOrStr, truthyStr]
      · simp [jsOrStr, truthyStr, h]

/-- C7: for a workflow_dispatch event with empty `directPrompt`, the
evaluator activates exactly when a truthy PR number is found in the dispatch
inputs, the `pr_number` action input, or the `PR_NUMBER` environment
variable — or else when a truthy prompt is found in the dispatch inputs, the
`prompt` action input, or the `PROMPT` environment variable. -/
theorem workflow_dispatch_rule :
    ∀ (c : ParsedGitHubContext) (ambient : AmbientEnv)
      (w : Option WorkflowInputs),
      c.payload = .workflowDispatch w →
      c.inputs.directPrompt = "" →
      checkContainsTrigger c ambient =
        ((truthyStr (w.bind (fun x => x.pr_number)) ||
          (truthyStr (some ambient.inputPrNumber) ||
            truthyStr ambient.envPrNumber)) ||
         (truthyStr (w.bind (fun x => x.prompt)) ||
          (truthyStr (some ambient.inputPrompt) ||
            truthyStr ambient.envPrompt))) := by
  intro c ambient w hpay hdp
  have hdp' : ¬ c.inputs.directPrompt ≠ "" := by simp [hdp]
  simp only [checkContainsTrigger, checkContainsTriggerLog,
    checkContainsTriggerCore, if_neg hdp', hpay]
  simp only [truthyStr_jsOrStr]
  cases h1 : (truthyStr (w.bind (fun x => x.pr_number)) ||
      (truthyStr (some ambient.inputPrNumber) ||
        truthyStr ambient.envPrNumber)) with
  | true => simp [h1]
  | false =>
      cases h2 : (truthyStr (w.bind (fun x => x.prompt)) ||
          (truthyStr (some ambient.inputPrompt) ||
            truthyStr ambient.envPrompt)) with
      | true => simp [h1, h2]
      | false => simp [h1, h2]

/-- A workflow_dispatch context whose inputs carry `pr_number = "42"`. -/
def ctxWorkflowPr : ParsedGitHubContext :=
  ⟨"run-2", none, "octo", "repo", "octo/repo", "actor",
    .workflowDispatch (some ⟨some "42", none, none⟩), some 42, true,
    defaultInputs⟩

/-- Witness for C7: with `pr_number = "42"` in the dispatch inputs and an
empty fallback chain, the evaluator activates. -/
theorem workflow_dispatch_rule_witness :
    checkContainsTrigger ctxWorkflowPr quietAmbient = true := by
  rw [workflow_dispatch_rule ctxWorkflowPr quietAmbient
    (some ⟨some "42", none, none⟩) rfl rfl]
  decide

/-- C6: for a repository_dispatch event with empty `directPrompt`, the
evaluator activates exactly when `client_payload` carries a truthy
`pr_number`, or else a truthy `issue_number`, or else a truthy `prompt`,
checked in that order; when a truthy PR number is present the rationale
names the PR number (regardless of any issue number), and when the PR
number is absent or falsy a truthy issue number decides with a rationale
naming the issue number. -/
theorem repository_dispatch_priority :
    ∀ (c : ParsedGitHubContext) (ambient : AmbientEnv)
      (cp : Option ClientPayload),
      c.payload = .repositoryDispatch cp →
      c.inputs.directPrompt = "" →
      (checkContainsTrigger c ambient =
        (truthyInt (cp.bind (fun x => x.pr_number)) ||
         (truthyInt (cp.bind (fun x => x.issue_number)) ||
          truthyStr (cp.bind (fun x => x.prompt))))) ∧
      (∀ n : Int, cp.bind (fun x => x.pr_number) = some n → n ≠ 0 →
        checkContainsTriggerLog c ambient =
          (true, "Repository dispatch triggered for PR #" ++ toString n)) ∧
      (∀ m : Int, truthyInt (cp.bind (fun x => x.pr_number)) = false →
        cp.bind (fun x => x.issue_number) = some m → m ≠ 0 →
        checkContainsTriggerLog c ambient =
          (true, "Repository dispatch triggered for issue #" ++
            toString m)) := by
  intro c ambient cp hpay hdp
  have hdp' : ¬ c.inputs.directPrompt ≠ "" := by simp [hdp]
  refine ⟨?_, ?_, ?_⟩
  · simp only [checkContainsTrigger, checkContainsTriggerLog,
      checkContainsTriggerCore, if_neg hdp', hpay]
    cases h1 : truthyInt (cp.bind (fun x => x.pr_number)) with
    | true => simp [h1]
    | false =>
        cases h2 : truthyInt (cp.bind (fun x => x.issue_number)) with
        | true => simp [h1, h2]
        | false =>
            cases h3 : truthyStr (cp.bind (fun x => x.prompt)) with
            | true => simp [h1, h2, h3]
            | false => simp [h1, h2, h3]
  · intro n hn hne
    have ht : truthyInt (cp.bind (fun x => x.pr_number)) = true := by
      rw [hn]; simp [truthyInt, hne]
    simp only [checkContainsTriggerLog, checkContainsTriggerCore,
      if_neg hdp', hpay, ht, if_true, hn]
    simp
    intro hf
    simp [truthyInt, hne] at hf
  · intro m h1 hm hne
    have ht : truthyInt (cp.bind (fun x => x.issue_number)) = true := by
      rw [hm]; simp [truthyInt, hne]
    simp only [checkContainsTriggerLog, checkContainsTriggerCore,
      if_neg hdp', hpay, h1, ht, if_true, hm]
    simp
    intro hf
    simp [truthyInt, hne] at hf

/-- A repository_dispatch context whose `client_payload` carries both a PR
number (7) and an issue number (9). -/
def ctxRepoBoth : ParsedGitHubContext :=
  ⟨"run-4", none, "octo", "repo", "octo/repo", "actor",
    .repositoryDispatch (some ⟨some 7, some 9, none, none⟩), some 7, true,
    defaultInputs⟩

/-- Witness for C6: with both numbers present the PR branch decides and the
rationale names PR 7, not issue 9. -/
theorem repository_dispatch_priority_witness :
    checkContainsTriggerLog ctxRepoBoth quietAmbient =
      (true, "Repository dispatch triggered for PR #" ++ toString (7 : Int)) :=
  (repository_dispatch_priority ctxRepoBoth quietAmbient
    (some ⟨some 7, some 9, none, none⟩) rfl rfl).2.1 7 rfl (by decide)

def assignedInputs (trigger : String) : Inputs :=
  { defaultInputs with assigneeTrigger := trigger }

/-- An issues/assigned context with the given configured assignee trigger
and the given assignee login on the issue. -/
def assignedCtx (trigger login : String) : ParsedGitHubContext :=
  ⟨"run-3", some "assigned", "octo", "repo", "octo/repo", "actor",
    .issues ⟨10, none, none, some ⟨login⟩, false⟩ none, some 10, false,
    assignedInputs trigger⟩

/-- C8: on an issues/assigned event with empty `directPrompt`, the evaluator
activates exactly when the configured assignee trigger, after stripping one
leading `@`, is non-empty and equals (case-sensitively) the issue's assignee
login; in particular configured `"@claude-bot"` matches login
`"claude-bot"`, but neither `"Claude-Bot"` nor `"claude-bot2"`. -/
theorem assignee_trigger_rule :
    (∀ (c : ParsedGitHubContext) (ambient : AmbientEnv) (issue : IssueData)
        (label : Option LabelData),
      c.payload = .issues issue label →
      c.eventAction = some "assigned" →
      c.inputs.directPrompt = "" →
      (checkContainsTrigger c ambient = true ↔
        (stripLeadingAt c.inputs.assigneeTrigger ≠ "" ∧
          ∃ u, issue.assignee = some u ∧
            u.login = stripLeadingAt c.inputs.assigneeTrigger))) ∧
    checkContainsTrigger (assignedCtx "@claude-bot" "claude-bot")
      quietAmbient = true ∧
    checkContainsTrigger (assignedCtx "@claude-bot" "Claude-Bot")
      quietAmbient = false ∧
    checkContainsTrigger (assignedCtx "@claude-bot" "claude-bot2")
      quietAmbient = false := by
  refine ⟨?_, by decide, by decide, by decide⟩
  intro c ambient issue label hpay hact hdp
  have hdp' : ¬ c.inputs.directPrompt ≠ "" := by simp [hdp]
  cases hasg : issue.assignee with
  | none =>
      by_cases htu : stripLeadingAt c.inputs.assigneeTrigger = ""
      · simp [checkContainsTrigger, checkContainsTriggerLog,
          checkContainsTriggerCore, if_neg hdp', hpay, hact, hasg, htu]
      · simp [checkContainsTrigger, checkContainsTriggerLog,
          checkContainsTriggerCore, if_neg hdp', hpay, hact, hasg, htu,
          Ne.symm htu]
  | some u =>
      by_cases htu : stripLeadingAt c.inputs.assigneeTrigger = ""
      · simp [checkContainsTrigger, checkContainsTriggerLog,
          checkContainsTriggerCore, if_neg hdp', hpay, hact, hasg, htu]
      · by_cases hlogin : u.login = stripLeadingAt c.inputs.assigneeTrigger
        · simp [checkContainsTrigger, checkContainsTriggerLog,
            checkContainsTriggerCore, if_neg hdp', hpay, hact, hasg, htu,
            hlogin]
        · simp [checkContainsTrigger, checkContainsTriggerLog,
            checkContainsTriggerCore, if_neg hdp', hpay, hact, hasg, htu,
            hlogin]

/-- Witness for C8's main equivalence at a concrete matching context. -/
theorem assignee_trigger_rule_witness :
    checkContainsTrigger (assignedCtx "@claude-bot" "claude-bot")
      quietAmbient = true :=
  (assignee_trigger_rule.1 (assignedCtx "@claude-bot" "claude-bot")
      quietAmbient ⟨10, none, none, some ⟨"claude-bot"⟩, false⟩ none rfl rfl
      rfl).mpr
    ⟨by decide, ⟨"claude-bot"⟩, rfl, by decide⟩

/-- A non-empty phrase never matches the empty text. -/
theorem containsTriggerPhrase_empty (phrase : String) (h : phrase ≠ "") :
    containsTriggerPhrase phrase "" = false := by
  unfold containsTriggerPhrase regexTest
  rw [show ("" : String).data = [] from rfl, scanAux_nil, Bool.true_and]
  rw [List.isEmpty_eq_false]
  intro hd
  apply h
  cases phrase with
  | mk l => exact congrArg String.mk hd

/-- C4: the evaluator is a total function (it is defined by structural
pattern-matching, so it never throws for a supported kind), and each missing
optional text field — issue/PR body or title, review body, label name,
assignee login — is read through a `|| ""`/`?.` fallback, so its absence
makes the corresponding rule evaluate false rather than erroring: an
issues/opened event without body and title does not activate, a
pull_request event without body and title does not activate, a
pull_request_review without review body does not activate, an
issues/assigned event without an assignee does not activate, an
issues/labeled event without a label does not activate, and replacing an
absent body/title by the present-but-empty string changes nothing. -/
theorem evaluator_missing_fields :
    (∀ (c : ParsedGitHubContext) (ambient : AmbientEnv) (issue : IssueData)
        (label : Option LabelData),
      c.payload = .issues issue label → c.eventAction = some "opened" →
      c.inputs.directPrompt = "" → c.inputs.triggerPhrase ≠ "" →
      issue.body = none → issue.title = none →
      checkContainsTrigger c ambient = false) ∧
    (∀ (c : ParsedGitHubContext) (ambient : AmbientEnv) (pr : PrData),
      c.payload = .pullRequest pr →
      c.inputs.directPrompt = "" → c.inputs.triggerPhrase ≠ "" →
      pr.body = none → pr.title = none →
      checkContainsTrigger c ambient = false) ∧
    (∀ (c : ParsedGitHubContext) (ambient : AmbientEnv) (pr : PrData)
        (review : ReviewData),
      c.payload = .pullRequestReview pr review →
      c.inputs.directPrompt = "" → c.inputs.triggerPhrase ≠ "" →
      review.body = none →
      checkContainsTrigger c ambient = false) ∧
    (∀ (c : ParsedGitHubContext) (ambient : AmbientEnv) (issue : IssueData)
        (label : Option LabelData),
      c.payload = .issues issue label → c.eventAction = some "assigned" →
      c.inputs.directPrompt = "" → issue.assignee = none →
      checkContainsTrigger c ambient = false) ∧
    (∀ (c : ParsedGitHubContext) (ambient : AmbientEnv) (issue : IssueData),
      c.payload = .issues issue none → c.eventAction = some "labeled" →
      c.inputs.directPrompt = "" →
      checkContainsTrigger c ambient = false) ∧
    (∀ (rid : String) (act : Option String) (ow rn fn ac : String)
        (en : Option Int) (ipr : Bool) (inputs : Inputs)
        (ambient : AmbientEnv) (num : Nat) (asg : Option UserData)
        (ref : Bool) (label : Option LabelData),
      checkContainsTrigger ⟨rid, act, ow, rn, fn, ac,
          .issues ⟨num, none, none, asg, ref⟩ label, en, ipr, inputs⟩
        ambient =
      checkContainsTrigger ⟨rid, act, ow, rn, fn, ac,
          .issues ⟨num, some "", some "", asg, ref⟩ label, en, ipr, inputs⟩
        ambient) := by
  refine ⟨?_, ?_, ?_, ?_, ?_, ?_⟩
  · intro c ambient issue label hpay hact hdp hph hb ht
    have hdp' : ¬ c.inputs.directPrompt ≠ "" := by simp [hdp]
    simp [checkContainsTrigger, checkContainsTriggerLog,
      checkContainsTriggerCore, if_neg hdp', hpay, hact, hb, ht, jsOrEmpty,
      containsTriggerPhrase_empty _ hph]
  · intro c ambient pr hpay hdp hph hb ht
    have hdp' : ¬ c.inputs.directPrompt ≠ "" := by simp [hdp]
    simp [checkContainsTrigger, checkContainsTriggerLog,
      checkContainsTriggerCore, if_neg hdp', hpay, hb, ht, jsOrEmpty,
      containsTriggerPhrase_empty _ hph]
  · intro c ambient pr review hpay hdp hph hb
    have hdp' : ¬ c.inputs.directPrompt ≠ "" := by simp [hdp]
    simp [checkContainsTrigger, checkContainsTriggerLog,
      checkContainsTriggerCore, if_neg hdp', hpay, hb, jsOrEmpty,
      containsTriggerPhrase_empty _ hph]
  · intro c ambient issue label hpay hact hdp hasg
    have hdp' : ¬ c.inputs.directPrompt ≠ "" := by simp [hdp]
    by_cases htu : stripLeadingAt c.inputs.assigneeTrigger = ""
    · simp [checkContainsTrigger, checkContainsTriggerLog,
        checkContainsTriggerCore, if_neg hdp', hpay, hact, hasg, htu]
    · simp [checkContainsTrigger, checkContainsTriggerLog,
        checkContainsTriggerCore, if_neg hdp', hpay, hact, hasg, htu,
        Ne.symm htu]
  · intro c ambient issue hpay hact hdp
    have hdp' : ¬ c.inputs.directPrompt ≠ "" := by simp [hdp]
    simp [checkContainsTrigger, checkContainsTriggerLog,
      checkContainsTriggerCore, if_neg hdp', hpay, hact]
  · intro rid act ow rn fn ac en ipr inputs ambient num asg ref label
    simp [checkContainsTrigger, checkContainsTriggerLog,
      checkContainsTriggerCore, jsOrEmpty]

/-- An issues/opened context with neither body nor title. -/
def ctxOpenedNoText : ParsedGitHubContext :=
  ⟨"run-5", some "opened", "octo", "repo", "octo/repo", "actor",
    .issues ⟨13, none, none, none, false⟩ none, some 13, false,
    defaultInputs⟩

/-- Witness for C4: an issues/opened event with absent body and title does
not activate (and does not error). -/
theorem evaluator_missing_fields_witness :
    checkContainsTrigger ctxOpenedNoText quietAmbient = false :=
  evaluator_missing_fields.1 ctxOpenedNoText quietAmbient
    ⟨13, none, none, none, false⟩ none rfl rfl rfl (by decide) rfl rfl
